import Mathlib

/-!
Verification development for the pciSeq scenarios dashboard.

The JavaScript sources are shallowly embedded: JS objects used as
string-keyed dictionaries become insertion-ordered association lists,
JS numbers become rationals (`ℚ`), nullable values become `Option`,
and the stateful event handlers become explicit state-passing
functions.  Fetches are modelled by passing the fetch outcome
(`Option` of the parsed JSON) as an argument: `none` is a failed
fetch, and a handler that catches the error returns the unchanged
state together with a flag recording that the error path ran.
-/

namespace PciSeq

/-- First-match association-list lookup; models JS object property read
`obj[key]` (returning `none` for an absent property). -/
def alookup {α : Type} : List (String × α) → String → Option α
  | [], _ => none
  | (k, v) :: rest, key => if k = key then some v else alookup rest key

/-- Association-list update; models JS `obj[key] = v` (replaces the value of
an existing key in place, otherwise appends a new entry, preserving JS
insertion-order enumeration). -/
def setAssoc {α : Type} : List (String × α) → String → α → List (String × α)
  | [], key, v => [(key, v)]
  | (k, w) :: rest, key, v =>
      if k = key then (k, v) :: rest else (k, w) :: setAssoc rest key v

/-- Models JS `String.prototype.startsWith`, working on the character
list of the string. -/
def strStartsWith (s pre : String) : Bool :=
  pre.data.isPrefixOf s.data

/-- Models JS `String.prototype.slice(n)` / Lean `String.drop`, working on
the character list of the string. -/
def strDrop (s : String) (n : ℕ) : String :=
  ⟨s.data.drop n⟩

/-- Association-list counter increment; models
`obj[key] = (obj[key] || 0) + n` on a JS object used as a counter map. -/
def bump : List (String × ℕ) → String → ℕ → List (String × ℕ)
  | [], key, n => [(key, n)]
  | (k, m) :: rest, key, n =>
      if k = key then (k, m + n) :: rest else (k, m) :: bump rest key n

/-! ## Parameter configuration and run mapping (main script, `PARAM_CONFIG`
and `RUN_MAPPING`) -/

/-- One entry of `PARAM_CONFIG` (keyed externally by the parameter name). -/
structure ParamConfig where
  defaultValue : ℚ
  values : List ℚ
  displayName : String
deriving DecidableEq

/-- The `PARAM_CONFIG` object from the main script, as a name-keyed
association list. -/
def PARAM_CONFIG : List (String × ParamConfig) :=
  [ ("inefficiency", ⟨1/10, [1/1000, 5/1000, 1/100, 5/100, 1/10, 1/2, 1], "Inefficiency"⟩),
    ("misreadDensity", ⟨1/100000, [1/1000000, 5/1000000, 1/100000, 5/100000, 1/10000], "MisreadDensity"⟩),
    ("spotReg", ⟨1/10, [1/1000, 1/100, 1/10, 1/2, 1], "SpotReg"⟩),
    ("rSpot", ⟨2, [1/2, 1, 2, 5, 10], "rSpot"⟩) ]

/-- `PARAM_CONFIG[paramName]` (property read on the config object). -/
def lookupParamConfig (name : String) : Option ParamConfig :=
  alookup PARAM_CONFIG name

/-- `PARAM_CONFIG[paramName].default`; the `0` branch is unreachable for the
four parameter names the dashboard uses. -/
def paramDefault (name : String) : ℚ :=
  match lookupParamConfig name with
  | some cfg => cfg.defaultValue
  | none => 0

/-- The `RUN_MAPPING` object from the main script: string key
`"<param>:<value>"` (string-formatted value) to run identifier. -/
def RUN_MAPPING : List (String × String) :=
  [ ("default", "run_0"),
    ("inefficiency:0.001", "run_6"),
    ("inefficiency:0.005", "run_5"),
    ("inefficiency:0.01", "run_4"),
    ("inefficiency:0.05", "run_3"),
    ("inefficiency:0.5", "run_1"),
    ("inefficiency:1.0", "run_2"),
    ("misreadDensity:1e-06", "run_8"),
    ("misreadDensity:5e-06", "run_7"),
    ("misreadDensity:5e-05", "run_9"),
    ("misreadDensity:1e-04", "run_10"),
    ("spotReg:0.001", "run_11"),
    ("spotReg:0.01", "run_12"),
    ("spotReg:0.5", "run_13"),
    ("spotReg:1.0", "run_14"),
    ("rSpot:0.5", "run_15"),
    ("rSpot:1.0", "run_16"),
    ("rSpot:5.0", "run_17"),
    ("rSpot:10.0", "run_18") ]

/-- `RUN_MAPPING[key]`. -/
def lookupRunMapping (key : String) : Option String :=
  alookup RUN_MAPPING key

/-- Every identifier the resolver may legally emit: the base run plus the
values of the run mapping table. -/
def validRunIds : List String := "run_0" :: RUN_MAPPING.map (fun e => e.2)

/-- Models JavaScript number-to-string conversion (template-literal
interpolation, `` `${param.value}` ``) for the finite set of numeric
parameter values appearing in `PARAM_CONFIG`.  JS prints these doubles in
positional notation without a trailing `.0` (`1.0` prints as `"1"`,
`1e-06` as `"0.000001"`); values outside the table (never produced by the
dashboard's selectors) fall through to a marker string. -/
def jsNumberToString (q : ℚ) : String :=
  if q = 1/1000 then "0.001"
  else if q = 5/1000 then "0.005"
  else if q = 1/100 then "0.01"
  else if q = 5/100 then "0.05"
  else if q = 1/10 then "0.1"
  else if q = 1/2 then "0.5"
  else if q = 1 then "1"
  else if q = 1/1000000 then "0.000001"
  else if q = 5/1000000 then "0.000005"
  else if q = 1/100000 then "0.00001"
  else if q = 5/100000 then "0.00005"
  else if q = 1/10000 then "0.0001"
  else if q = 2 then "2"
  else if q = 5 then "5"
  else if q = 10 then "10"
  else "<untabulated>"

/-- Models JavaScript `Number(string)` on the string tokens the selection UI
produces (the radio-input `value` attributes); tokens outside the table
parse to `0` and are never produced by the dashboard's selectors. -/
def jsParseNumber (s : String) : ℚ :=
  if s = "0.001" then 1/1000
  else if s = "0.005" then 5/1000
  else if s = "0.01" then 1/100
  else if s = "0.05" then 5/100
  else if s = "0.1" then 1/10
  else if s = "0.5" then 1/2
  else if s = "1.0" then 1
  else if s = "1e-06" then 1/1000000
  else if s = "5e-06" then 5/1000000
  else if s = "1e-05" then 1/100000
  else if s = "5e-05" then 5/100000
  else if s = "1e-04" then 1/10000
  else if s = "2.0" then 2
  else if s = "5.0" then 5
  else if s = "10.0" then 10
  else 0

/-- Modelled from the spec: the radio-button string tokens of the selection
UI, one list per parameter.  The HTML page that carries the radio inputs is
not among the sources; per the spec the UI offers exactly the allowed
values of each parameter, formatted as the Run Mapping Table keys are
(e.g. `"1.0"`, `"1e-06"`). -/
def uiParamTokens : List (String × List String) :=
  [ ("inefficiency", ["0.001", "0.005", "0.01", "0.05", "0.1", "0.5", "1.0"]),
    ("misreadDensity", ["1e-06", "5e-06", "1e-05", "5e-05", "1e-04"]),
    ("spotReg", ["0.001", "0.01", "0.1", "0.5", "1.0"]),
    ("rSpot", ["0.5", "1.0", "2.0", "5.0", "10.0"]) ]

/-! ## Run resolution -/

/-- The run-id resolution step of `onParameterChange` (main script): decide
default-ness by numeric comparison `Number(paramValueStr) === Number(default)`,
otherwise look up the key built from the exact UI string token,
falling back to the base run on a miss. -/
def resolveRunId (paramName paramValueStr : String) : String :=
  let isDefault : Bool :=
    match lookupParamConfig paramName with
    | some cfg => if jsParseNumber paramValueStr = cfg.defaultValue then true else false
    | none => false
  if isDefault then "run_0"
  else
    match lookupRunMapping (paramName ++ ":" ++ paramValueStr) with
    | some runId => runId
    | none => "run_0"

/-- A full parameter configuration as assembled by `getCurrentConfig`
(one numeric value per parameter). -/
structure Config where
  inefficiency : ℚ
  misreadDensity : ℚ
  spotReg : ℚ
  rSpot : ℚ
deriving DecidableEq

/-- `Object.keys(config)` paired with values, in the key insertion order of
`getCurrentConfig`. -/
def configParams (c : Config) : List (String × ℚ) :=
  [ ("inefficiency", c.inefficiency), ("misreadDensity", c.misreadDensity),
    ("spotReg", c.spotReg), ("rSpot", c.rSpot) ]

/-- The `nonDefaultParams` array built by `getRunIdForConfig`
(`paramValue !== defaultValue`). -/
def nonDefaultParams (c : Config) : List (String × ℚ) :=
  (configParams c).filter (fun p => if p.2 = paramDefault p.1 then false else true)

/-- `getRunIdForConfig` (main script): zero non-default parameters map to the
base run with no table access; exactly one non-default parameter is looked
up under the key built from the (number-formatted) value, missing the table
falls back to the base run; two or more non-default parameters fall back to
the base run. -/
def getRunIdForConfig (c : Config) : String :=
  match nonDefaultParams c with
  | [] => "run_0"
  | [p] =>
      let key := p.1 ++ ":" ++ jsNumberToString p.2
      match lookupRunMapping key with
      | some runId => runId
      | none => "run_0"
  | _ => "run_0"

/-! ## Comparison state store (main script `state` plus `init` /
`onParameterChange`) -/

/-- A reference to a loaded run dataset.  `baseRef` denotes the very object
`state.baseData` points to; `fetched r` a fresh object parsed from
`data/<r>.json`.  Reference identity of `state.altData` with
`state.baseData` is exactly equality with `baseRef`. -/
inductive DataRef where
  | baseRef
  | fetched (runId : String)
deriving DecidableEq

/-- The run identifier a dataset reference stands for (`baseRun` being the
identifier of the base dataset from `runs_metadata.json`). -/
def DataRef.runIdOf (baseRun : String) : DataRef → String
  | .baseRef => baseRun
  | .fetched r => r

/-- The comparison-store fields of the global `state` object. -/
structure DashState where
  altData : Option DataRef
  currentRun : Option String
  currentRegion : String
  currentFilter : String
deriving DecidableEq

/-- The comparison-store fields as `init` leaves them after a successful
bootstrap: `state.altData = state.baseData`,
`state.currentRun = state.metadata.base_run`. -/
def initState (baseRun : String) : DashState :=
  { altData := some .baseRef, currentRun := some baseRun,
    currentRegion := "ca1", currentFilter := "all" }

/-- The comparison-store mutation performed by `onParameterChange` after run
resolution, together with a flag recording whether the error path
(`catch` with `alert`) ran.  `fetchOk` models the outcome of
`loadJSON('data/<runId>.json')`; when the branch taken performs no fetch
the flag is irrelevant. -/
def onParameterChangeStep (s : DashState) (paramName paramValueStr : String)
    (fetchOk : Bool) : DashState × Bool :=
  let runId := resolveRunId paramName paramValueStr
  if runId = "run_0" then
    ({ s with altData := some .baseRef, currentRun := some runId }, false)
  else if some runId ≠ s.currentRun then
    if fetchOk then
      ({ s with altData := some (.fetched runId), currentRun := some runId }, false)
    else
      (s, true)
  else
    (s, false)

/-- A completed dashboard operation: a parameter change (with its fetch
outcome), a region selection (`onRegionChange`), or a filter selection
(the filter-button handler). -/
inductive DashEvent where
  | paramChange (paramName paramValueStr : String) (fetchOk : Bool)
  | regionChange (region : String)
  | filterChange (filterMode : String)
deriving DecidableEq

/-- State transition of the comparison store for one completed event. -/
def dashStep (s : DashState) : DashEvent → DashState
  | .paramChange pn pv ok => (onParameterChangeStep s pn pv ok).1
  | .regionChange r => { s with currentRegion := r }
  | .filterChange f => { s with currentFilter := f }

/-- `dashStep` folded over a whole event sequence. -/
def dashRun (s : DashState) (events : List DashEvent) : DashState :=
  events.foldl dashStep s

/-- The comparison-state invariant: the alternate dataset is the dataset of
the current run identifier, and at the base run it is reference-identical
to the base dataset. -/
def dashInvariant (baseRun : String) (s : DashState) : Prop :=
  (∀ d, s.altData = some d → s.currentRun = some (d.runIdOf baseRun)) ∧
  (s.currentRun = some baseRun → s.altData = some .baseRef)

/-! ## Spatial viewer (spatial-state.js, spatial-loader.js,
spatial-rendering.js, main-script `switchTab` and filter buttons) -/

/-- One record of `data/<run>_cells.json`'s `cells` array. -/
structure Cell where
  id : ℕ
  x : ℚ
  y : ℚ
  z : Option ℤ
  r : Option ℚ
  cls : String
  gene_counts : Option ℕ
deriving DecidableEq

/-- `state.geom` of spatial-state.js. -/
structure Geom where
  ready : Bool
  is3D : Bool
  zValues : List ℤ
  defaultRadius : ℚ
deriving DecidableEq

/-- The spatial-viewer `state` of spatial-state.js (the fields the claims
are about; `fitCount` instruments the number of `autoFitView` calls). -/
structure SpatialState where
  cells : List Cell
  numCells : ℕ
  currentRun : Option String
  cellClassCounts : List (String × ℕ)
  cellClassVisible : List (String × Bool)
  deckReady : Bool
  geom : Geom
  viewFitted : Bool
  fitCount : ℕ
  planeFilterEnabled : Bool
  selectedPlane : Option ℤ
  useGeneFilter : Bool
  minGeneCount : ℕ
  legendFilter : String
deriving DecidableEq

/-- The initial spatial-viewer state literal of spatial-state.js
(`deckReady` models `state.deckgl` being populated by `initializeDeck`). -/
def spatialInit : SpatialState :=
  { cells := [], numCells := 0, currentRun := none,
    cellClassCounts := [], cellClassVisible := [],
    deckReady := false,
    geom := { ready := false, is3D := false, zValues := [], defaultRadius := 6 },
    viewFitted := false, fitCount := 0,
    planeFilterEnabled := false, selectedPlane := none,
    useGeneFilter := false, minGeneCount := 40,
    legendFilter := "" }

/-- Loop body of `updateCellClassCounts` (spatial-state.js): bump the class
counter, and initialise visibility to `true` only when the class has no
entry yet (`className in state.cellClassVisible`). -/
def classCountStep (acc : List (String × ℕ) × List (String × Bool)) (c : Cell) :
    List (String × ℕ) × List (String × Bool) :=
  (bump acc.1 c.cls 1,
   if (alookup acc.2 c.cls).isSome then acc.2 else acc.2 ++ [(c.cls, true)])

/-- `window.SpatialViewer.updateCellClassCounts` (spatial-state.js): rebuild
the per-class counts from scratch and initialise visibility to `true` only
for classes not yet present in `cellClassVisible`. -/
def updateCellClassCounts (s : SpatialState) : SpatialState :=
  if s.cells.isEmpty then s
  else
    let r := s.cells.foldl classCountStep ([], s.cellClassVisible)
    { s with cellClassCounts := r.1, cellClassVisible := r.2 }

/-- The class-visibility predicate of `render` (spatial-rendering.js):
`state.cellClassVisible[cell.class]` is truthy. -/
def visPred (s : SpatialState) (c : Cell) : Bool :=
  (alookup s.cellClassVisible c.cls).getD false

/-- Whether the plane filter is in force:
`planeFilterEnabled && geom.is3D && selectedPlane !== null`. -/
def planeActive (s : SpatialState) : Bool :=
  s.planeFilterEnabled && s.geom.is3D && s.selectedPlane.isSome

/-- The plane predicate as a standalone filter: when the plane filter is in
force, the cell's z (missing z read as 0) equals the selected plane. -/
def planePred (s : SpatialState) (c : Cell) : Bool :=
  !planeActive s || (c.z.getD 0 == s.selectedPlane.getD 0)

/-- The gene-count predicate as a standalone filter: when `useGeneFilter` is
set, `gene_counts` must be present and at least the threshold
(`Number(state.minGeneCount) || 0`). -/
def genePred (s : SpatialState) (c : Cell) : Bool :=
  !s.useGeneFilter ||
    (match c.gene_counts with
     | some g => decide (s.minGeneCount ≤ g)
     | none => false)

/-- The `visibleCells` computed by `render` (spatial-rendering.js): the
sequential filter chain visibility, then plane, then gene count. -/
def renderedCells (s : SpatialState) : List Cell :=
  let visibleCells := s.cells.filter (fun c => visPred s c)
  let visibleCells :=
    if planeActive s then
      visibleCells.filter (fun c => c.z.getD 0 == s.selectedPlane.getD 0)
    else visibleCells
  if s.useGeneFilter then
    visibleCells.filter (fun c =>
      match c.gene_counts with
      | some g => decide (s.minGeneCount ≤ g)
      | none => false)
  else visibleCells

/-- `getLegendFilteredCells` (spatial-rendering.js): plane and gene-count
filters only, no class-visibility restriction. -/
def getLegendFilteredCells (s : SpatialState) : List Cell :=
  let cells := s.cells
  let cells :=
    if planeActive s then
      cells.filter (fun c => c.z.getD 0 == s.selectedPlane.getD 0)
    else cells
  if s.useGeneFilter then
    cells.filter (fun c =>
      match c.gene_counts with
      | some g => decide (s.minGeneCount ≤ g)
      | none => false)
  else cells

/-- Number of cells of a given class in a cell list (the per-class counts
the legend and the renderer produce). -/
def countClass (cells : List Cell) (cls : String) : ℕ :=
  (cells.filter (fun c => c.cls == cls)).length

/-- `render` (spatial-rendering.js) as a state transition: a no-op unless
deck.gl is initialised and cells are loaded; on the first successful render
after a reset it runs `autoFitView` (counted by `fitCount`) and sets
`viewFitted`. -/
def render (s : SpatialState) : SpatialState :=
  if s.deckReady && !(s.cells.length == 0) then
    if s.viewFitted then s
    else { s with viewFitted := true, fitCount := s.fitCount + 1 }
  else s

/-- The parsed content of `data/<run>_cells.json`. -/
structure CellsJson where
  cells : List Cell
  z_values : List ℤ
  default_radius : Option ℚ
deriving DecidableEq

/-- `loadRunData` (spatial-loader.js).  `fetchResult` models the fetch and
JSON-parse outcome; `none` (failure) takes the `catch` path: state is
untouched, the no-data placeholder is shown and `false` is returned.  On
success the state is rebuilt, `viewFitted` reset, class counts updated and
a render issued; returns `true`. -/
def loadRunData (s : SpatialState) (runId : String) (fetchResult : Option CellsJson) :
    SpatialState × Bool :=
  match fetchResult with
  | none => (s, false)
  | some data =>
      let s1 := { s with
        currentRun := some runId,
        cells := data.cells,
        numCells := data.cells.length,
        geom := { ready := true, zValues := data.z_values,
                  defaultRadius := data.default_radius.getD 6,
                  is3D := decide (1 < data.z_values.length) },
        viewFitted := false,
        planeFilterEnabled := false,
        selectedPlane := none }
      let s2 := updateCellClassCounts s1
      (render s2, true)

/-- The spatial-tab branch of `switchTab` (main script): switching to the
spatial tab forces `viewFitted = false` and re-renders so the viewer
re-fits after layout; any other tab leaves the viewer alone. -/
def switchTab (s : SpatialState) (tabId : String) : SpatialState :=
  if tabId = "flowchartSpatial" then
    render { s with viewFitted := false }
  else s

/-- The spatial-viewer side effect of the filter buttons (main script):
set `useGeneFilter` and the metadata threshold (default 40), then render. -/
def filterButtonSpatial (s : SpatialState) (selected : String)
    (metaMinGene : Option ℕ) : SpatialState :=
  render { s with useGeneFilter := selected == "high_gene",
                  minGeneCount := metaMinGene.getD 40 }

/-- `toggleClassVisibility` (spatial-rendering.js): flip one class's flag
(JS `!undefined` makes an absent class visible) and re-render. -/
def toggleClassVisibility (s : SpatialState) (className : String) : SpatialState :=
  let newVal :=
    match alookup s.cellClassVisible className with
    | some b => !b
    | none => true
  render { s with cellClassVisible := setAssoc s.cellClassVisible className newVal }

/-! ## Viewport auto-fit (spatial-rendering.js `autoFitView`) -/

/-- The zoom `autoFitView` computes: either
`min(log2(containerWidth/dataWidth), log2(containerHeight/dataHeight))`
— recorded symbolically by its two ratios — or the fixed fallback `-1`. -/
inductive ZoomSpec where
  | fitRatios (zx zy : ℚ)
  | defaultZoom
deriving DecidableEq

/-- The view state `autoFitView` hands to deck.gl. -/
structure FitView where
  targetX : ℚ
  targetY : ℚ
  zoom : ZoomSpec
  transitionDuration : ℕ
deriving DecidableEq

/-- Loop body of `autoFitView`'s bounding-box computation: fold one cell's
position into the running `(minX, minY, maxX, maxY)`. -/
def bstep (b : ℚ × ℚ × ℚ × ℚ) (c : Cell) : ℚ × ℚ × ℚ × ℚ :=
  (min b.1 c.x, min b.2.1 c.y, max b.2.2.1 c.x, max b.2.2.2 c.y)

/-- The bounding box loop of `autoFitView`: fold of `min`/`max` over all
cell positions (returned as `(minX, minY, maxX, maxY)`). -/
def bbox (c0 : Cell) (cells : List Cell) : ℚ × ℚ × ℚ × ℚ :=
  cells.foldl bstep (c0.x, c0.y, c0.x, c0.y)

/-- `autoFitView` (spatial-rendering.js): no-op on an empty cell set;
otherwise bound all (unfiltered) cells, pad by 10% of each extent per
side, target the padded box's midpoint, and fit the zoom from the
container when container and padded dimensions are positive (with a
1000 ms transition), else fall back to zoom `-1` with no transition. -/
def autoFitView (cells : List Cell) (containerWidth containerHeight : ℚ) :
    Option FitView :=
  match cells with
  | [] => none
  | c0 :: _ =>
      let b := bbox c0 cells
      let minX := b.1
      let minY := b.2.1
      let maxX := b.2.2.1
      let maxY := b.2.2.2
      let width := maxX - minX
      let height := maxY - minY
      let paddedMinX := minX - width * (1/10)
      let paddedMinY := minY - height * (1/10)
      let paddedMaxX := maxX + width * (1/10)
      let paddedMaxY := maxY + height * (1/10)
      let centerX := (paddedMinX + paddedMaxX) / 2
      let centerY := (paddedMinY + paddedMaxY) / 2
      let dataWidth := paddedMaxX - paddedMinX
      let dataHeight := paddedMaxY - paddedMinY
      if 0 < containerWidth ∧ 0 < containerHeight ∧ 0 < dataWidth ∧ 0 < dataHeight then
        some ⟨centerX, centerY,
              .fitRatios (containerWidth / dataWidth) (containerHeight / dataHeight), 1000⟩
      else
        some ⟨centerX, centerY, .defaultZoom, 0⟩

/-! ## Color lookups (main script `getCellColor`, spatial-colors.js) -/

/-- The `sankeyMapping` object inside `getCellColor`. -/
def sankeyMapping : List (String × String) :=
  [ ("CA1", "016 CA1-ProS Glut"), ("CA2", "025 CA2-FC-IG Glut"),
    ("CA3", "017 CA3 Glut"), ("DG", "037 DG Glut") ]

/-- The `SIMPLE_CLASS_COLORS` palette of the main script. -/
def SIMPLE_CLASS_COLORS : List (String × String) :=
  [ ("CA1", "#d62728"), ("CA2", "#ff7f0e"), ("CA3", "#9467bd"), ("DG", "#2ca02c"),
    ("Astro", "#17becf"), ("Oligo", "#8c564b"), ("L5", "#1f77b4"), ("L6", "#2c3e50"),
    ("Other", "#999999"), ("Zero", "#000000") ]

/-- `getCellColor` (main script): absolute Zero/Other overrides first, then
the simplified-name remap, then the loaded scheme (a truthy — non-empty —
color string), then the fixed simplified palette, then default blue. -/
def getCellColor (cellColors : List (String × String)) (cellType : String) : String :=
  if cellType = "Zero" then "#000000"
  else if cellType = "Other" then "#999999"
  else
    let lookupName := (alookup sankeyMapping cellType).getD cellType
    let fromScheme :=
      match alookup cellColors lookupName with
      | some c => if c = "" then none else some c
      | none => none
    match fromScheme with
    | some c => c
    | none =>
        match alookup SIMPLE_CLASS_COLORS cellType with
        | some c => c
        | none => "#1f77b4"

/-- Value of one hexadecimal digit (`parseInt(.., 16)` digit handling). -/
def hexDigitVal (c : Char) : ℕ :=
  if '0' ≤ c ∧ c ≤ '9' then c.toNat - '0'.toNat
  else if 'a' ≤ c ∧ c ≤ 'f' then c.toNat - 'a'.toNat + 10
  else if 'A' ≤ c ∧ c ≤ 'F' then c.toNat - 'A'.toNat + 10
  else 0

/-- `parseInt(hex, 16)` on a hex-digit string. -/
def parseHexNat (s : String) : ℕ :=
  s.data.foldl (fun a c => a * 16 + hexDigitVal c) 0

/-- `hexToRgb` (spatial-colors.js): strip a leading `#`, parse base 16, and
unpack with shifts and masks. -/
def hexToRgb (hex : String) : ℕ × ℕ × ℕ :=
  let h := if strStartsWith hex "#" then strDrop hex 1 else hex
  let n := parseHexNat h
  ((n / 65536) % 256, (n / 256) % 256, n % 256)

/-- `generateColorPalette` (spatial-colors.js): for each class name, take the
Yao scheme entry through `hexToRgb` when present, else the d3-based HSL
fallback (an external collaborator, passed in as `hsl`, a function of the
class index).  Writes into `state.cellClassColors`. -/
def generateColorPalette (yaoScheme : Option (List (String × String)))
    (classNames : List String) (hsl : ℕ → ℕ × ℕ × ℕ)
    (colors0 : List (String × (ℕ × ℕ × ℕ))) : List (String × (ℕ × ℕ × ℕ)) :=
  (classNames.enum).foldl
    (fun cols ia =>
      match yaoScheme with
      | some scheme =>
          match alookup scheme ia.2 with
          | some hex => setAssoc cols ia.2 (hexToRgb hex)
          | none => setAssoc cols ia.2 (hsl ia.1)
      | none => setAssoc cols ia.2 (hsl ia.1))
    colors0

/-- `getColorForClass` (spatial-colors.js): a plain palette lookup with a
grey `[128, 128, 128]` fallback — no Zero/Other special-casing. -/
def getColorForClass (cellClassColors : List (String × (ℕ × ℕ × ℕ)))
    (className : String) : ℕ × ℕ × ℕ :=
  (alookup cellClassColors className).getD (128, 128, 128)

/-! ## Sankey projection (main script `renderSankeyChart`,
`simplifyClassLabel`) -/

/-- `simplifyClassLabel` (main script): deterministic prefix rules from full
class labels to the ten simplified Sankey classes (a falsy — empty —
label reads as `Other`). -/
def simplifyClassLabel (label : String) : String :=
  if label = "" then "Other"
  else if strStartsWith label "016 CA1" then "CA1"
  else if strStartsWith label "025 CA2" then "CA2"
  else if strStartsWith label "017 CA3" then "CA3"
  else if strStartsWith label "037 DG Glut" || strStartsWith label "038 DG-PIR" then "DG"
  else if strStartsWith label "319 Astro" then "Astro"
  else if strStartsWith label "327 Oligo" then "Oligo"
  else if strStartsWith label "005 L5 IT" || strStartsWith label "022 L5 ET"
          || strStartsWith label "032 L5 NP" then "L5"
  else if strStartsWith label "030 L6 CT" || strStartsWith label "004 L6 IT"
          || strStartsWith label "029 L6b CTX" then "L6"
  else if strStartsWith label "Zero" then "Zero"
  else "Other"

/-- The `simpCounts` aggregation of `renderSankeyChart`'s fallback branch:
per-simplified-class totals of the base region's class counts, in first-hit
insertion order. -/
def aggregateSimplified (counts : List (String × ℕ)) : List (String × ℕ) :=
  counts.foldl (fun m e => bump m (simplifyClassLabel e.1) e.2) []

/-- The fallback identity transitions of `renderSankeyChart`: one self-loop
per simplified class carrying its aggregated count. -/
def fallbackTransitions (counts : List (String × ℕ)) : List (String × String × ℕ) :=
  (aggregateSimplified counts).map (fun e => (e.1, e.1, e.2))

/-- Transition selection of `renderSankeyChart`: the alternate dataset's
transitions for the current region and filter mode when present, else the
synthesized identity transitions from the base dataset's counts. -/
def sankeyTransitions (altTransitions : Option (List (String × String × ℕ)))
    (baseCounts : List (String × ℕ)) : List (String × String × ℕ) :=
  match altTransitions with
  | some t => t
  | none => fallbackTransitions baseCounts

/-- The fixed simplified-class order of `renderSankeyChart`. -/
def SIMPLIFIED_CLASSES : List String :=
  ["Astro", "CA1", "CA2", "CA3", "DG", "L5", "L6", "Oligo", "Other", "Zero"]

/-- The 20 Sankey node labels: the ten simplified classes duplicated into a
Base half and an Alt half, in the fixed canonical order. -/
def sankeyNodeLabels : List String :=
  SIMPLIFIED_CLASSES.map (fun c => c ++ " (Base)")
    ++ SIMPLIFIED_CLASSES.map (fun c => c ++ " (Alt)")

/-- Total base count of the labels that simplify to a given class (what the
fallback aggregation should produce per simplified class). -/
def totalForSimplified (counts : List (String × ℕ)) (s : String) : ℕ :=
  ((counts.filter (fun e => simplifyClassLabel e.1 == s)).map (fun e => e.2)).sum

/-! ## Concrete demonstration inputs -/

/-- A spatial state with the deck.gl instance initialised. -/
def spatialReady : SpatialState := { spatialInit with deckReady := true }

/-- A one-cell geometry file with a single class `"A"`. -/
def demoCellA : Cell := ⟨1, 0, 0, none, none, "A", some 5⟩

/-- A second geometry file that also contains class `"A"`. -/
def demoCellA2 : Cell := ⟨2, 10, 10, none, none, "A", some 50⟩

/-- Geometry payload of the first demonstration run. -/
def demoJson1 : CellsJson := ⟨[demoCellA], [], none⟩

/-- Geometry payload of the second demonstration run (same class present). -/
def demoJson2 : CellsJson := ⟨[demoCellA2], [], none⟩

/-- Cells whose bounding box is exactly `[0, 100] × [0, 50]`. -/
def demoFitCells : List Cell :=
  [⟨1, 0, 0, none, none, "A", some 5⟩, ⟨2, 100, 50, none, none, "B", some 7⟩]

/-- A color scheme that redefines the reserved label `"Zero"` to red. -/
def demoZeroScheme : List (String × String) := [("Zero", "#ff0000")]

/-! ## Helper lemmas -/

theorem alookup_mem {α : Type} (k : String) (v : α) :
    ∀ m : List (String × α), alookup m k = some v → (k, v) ∈ m := by
  intro m
  induction m with
  | nil => intro h; simp [alookup] at h
  | cons e rest ih =>
      obtain ⟨k', v'⟩ := e
      intro h
      simp only [alookup] at h
      split at h
      · rename_i hk
        cases h
        subst hk
        exact List.mem_cons_self _ _
      · exact List.mem_cons_of_mem _ (ih h)

theorem updateCellClassCounts_preserves (s : SpatialState) :
    (updateCellClassCounts s).cells = s.cells ∧
    (updateCellClassCounts s).deckReady = s.deckReady ∧
    (updateCellClassCounts s).viewFitted = s.viewFitted ∧
    (updateCellClassCounts s).fitCount = s.fitCount := by
  unfold updateCellClassCounts
  split <;> simp

theorem render_cellClassVisible (s : SpatialState) :
    (render s).cellClassVisible = s.cellClassVisible := by
  unfold render
  split
  · split <;> rfl
  · rfl

/-! ## Claim theorems -/

/-- C6: run resolution (`getRunIdForConfig`) never yields an invalid or
undefined identifier: the all-default configuration resolves to the base
run through the early-return branch that precedes any mapping-table
access, a single non-default value missing from the table falls back to
the base run, two or more non-default values fall back to the base run,
and every result is a valid run identifier. -/
theorem c6_run_resolution_total :
    (∀ c : Config, nonDefaultParams c = [] → getRunIdForConfig c = "run_0") ∧
    (∀ (c : Config) (p : String × ℚ), nonDefaultParams c = [p] →
        lookupRunMapping (p.1 ++ ":" ++ jsNumberToString p.2) = none →
        getRunIdForConfig c = "run_0") ∧
    (∀ c : Config, 2 ≤ (nonDefaultParams c).length → getRunIdForConfig c = "run_0") ∧
    (∀ c : Config, getRunIdForConfig c ∈ validRunIds) := by
  refine ⟨?_, ?_, ?_, ?_⟩
  · intro c h
    simp [getRunIdForConfig, h]
  · intro c p h hl
    simp [getRunIdForConfig, h, hl]
  · intro c h
    rcases hnd : nonDefaultParams c with _ | ⟨a, _ | ⟨b, t⟩⟩
    · rw [hnd] at h; simp at h
    · rw [hnd] at h; simp at h
    · simp [getRunIdForConfig, hnd]
  · intro c
    rcases hnd : nonDefaultParams c with _ | ⟨a, _ | ⟨b, t⟩⟩
    · simp [getRunIdForConfig, hnd, validRunIds]
    · rcases hl : lookupRunMapping (a.1 ++ ":" ++ jsNumberToString a.2) with _ | r
      · simp [getRunIdForConfig, hnd, hl, validRunIds]
      · have hmem : (a.1 ++ ":" ++ jsNumberToString a.2, r) ∈ RUN_MAPPING :=
          alookup_mem _ _ _ hl
        have hr : r ∈ RUN_MAPPING.map (fun e => e.2) :=
          List.mem_map_of_mem _ hmem
        simp only [getRunIdForConfig, hnd, hl]
        exact List.mem_cons_of_mem _ hr
    · simp [getRunIdForConfig, hnd, validRunIds]

/-- Witness for C6 at concrete configurations: all defaults; a single
unrecognized inefficiency value `1/4`; two simultaneous non-default
values. -/
theorem c6_witness :
    getRunIdForConfig ⟨1/10, 1/100000, 1/10, 2⟩ = "run_0" ∧
    getRunIdForConfig ⟨1/4, 1/100000, 1/10, 2⟩ = "run_0" ∧
    getRunIdForConfig ⟨1, 1/100000, 1/10, 5⟩ = "run_0" :=
  ⟨c6_run_resolution_total.1 _
     (by simp [nonDefaultParams, configParams, paramDefault,
               lookupParamConfig, PARAM_CONFIG, alookup]),
   c6_run_resolution_total.2.1 _ ("inefficiency", 1/4)
     (by simp [nonDefaultParams, configParams, paramDefault,
               lookupParamConfig, PARAM_CONFIG, alookup])
     (by norm_num [jsNumberToString]
         simp [lookupRunMapping, RUN_MAPPING, alookup]),
   c6_run_resolution_total.2.2.1 _
     (by simp [nonDefaultParams, configParams, paramDefault,
               lookupParamConfig, PARAM_CONFIG, alookup])⟩

/-- C1: for every parameter and every allowed non-default UI value token,
the live resolution path (`onParameterChange`) performs the mapping-table
lookup under the key built from the exact string token the selection UI
produced and returns that table entry (covering in particular
inefficiency `"1.0"`, rSpot `"5.0"` and misreadDensity `"1e-06"`, whose
renormalized numeric forms would not match the string-formatted keys). -/
theorem c1_single_param_string_lookup :
    ∀ p ∈ uiParamTokens, ∀ tok ∈ p.2,
      jsParseNumber tok ≠ paramDefault p.1 →
      (lookupRunMapping (p.1 ++ ":" ++ tok)).isSome = true ∧
      some (resolveRunId p.1 tok) = lookupRunMapping (p.1 ++ ":" ++ tok) := by
  intro p hp tok htok h
  unfold uiParamTokens at hp
  fin_cases hp <;> fin_cases htok <;>
    simp [jsParseNumber, paramDefault, lookupParamConfig, PARAM_CONFIG,
      alookup] at h <;>
    exact ⟨by simp [lookupRunMapping, RUN_MAPPING, alookup],
           by simp [resolveRunId, jsParseNumber, lookupParamConfig,
             PARAM_CONFIG, alookup, lookupRunMapping, RUN_MAPPING] <;> norm_num⟩

/-- Witness for C1 at the example the claim names: inefficiency `"1.0"`. -/
theorem c1_witness :
    (lookupRunMapping "inefficiency:1.0").isSome = true ∧
    some (resolveRunId "inefficiency" "1.0") = lookupRunMapping "inefficiency:1.0" :=
  c1_single_param_string_lookup
    ("inefficiency", ["0.001", "0.005", "0.01", "0.05", "0.1", "0.5", "1.0"])
    (by simp [uiParamTokens]) "1.0" (by simp)
    (by simp [jsParseNumber, paramDefault, lookupParamConfig, PARAM_CONFIG, alookup])

/-- C5: a failed fetch leaves the stores untouched and is absorbed at the
triggering call site.  A failed run-dataset fetch in `onParameterChange`
returns the comparison state unchanged (neither `altData` nor
`currentRun` moves) with the alert flag set; a failed geometry fetch in
`loadRunData` returns the spatial state unchanged with `false` (the
no-data placeholder path).  Both handlers return normally, so the error
never propagates past them. -/
theorem c5_fetch_failure_preserves_state :
    (∀ (s : DashState) (paramName paramValueStr : String),
        resolveRunId paramName paramValueStr ≠ "run_0" →
        some (resolveRunId paramName paramValueStr) ≠ s.currentRun →
        onParameterChangeStep s paramName paramValueStr false = (s, true)) ∧
    (∀ (s : SpatialState) (runId : String), loadRunData s runId none = (s, false)) := by
  constructor
  · intro s pn pv h1 h2
    simp [onParameterChangeStep, h1, h2]
  · intro s r
    rfl

/-- Witness for C5: a failing fetch for `run_2` (inefficiency `"1.0"`) out
of the freshly initialised dashboard, and a failing geometry fetch from
the initial spatial state. -/
theorem c5_witness :
    onParameterChangeStep (initState "run_0") "inefficiency" "1.0" false
      = (initState "run_0", true) ∧
    loadRunData spatialInit "run_3" none = (spatialInit, false) :=
  ⟨c5_fetch_failure_preserves_state.1 _ _ _
     (by simp [resolveRunId, jsParseNumber, lookupParamConfig, PARAM_CONFIG,
               alookup, lookupRunMapping, RUN_MAPPING])
     (by simp [resolveRunId, jsParseNumber, lookupParamConfig, PARAM_CONFIG,
               alookup, lookupRunMapping, RUN_MAPPING, initState]),
   c5_fetch_failure_preserves_state.2 _ _⟩

/-- C4 counterexample: the claim fails for the spatial viewer.  Loading a
scheme that defines `"Zero"` as red and generating the palette for class
`"Zero"` makes `getColorForClass` return red, not the fixed black: the
spatial-viewer lookup has no Zero/Other override. -/
theorem c4_counterexample :
    getColorForClass
        (generateColorPalette (some demoZeroScheme) ["Zero"] (fun _ => (1, 2, 3)) [])
        "Zero" = (255, 0, 0) ∧
    ((255, 0, 0) : ℕ × ℕ × ℕ) ≠ (0, 0, 0) := by
  constructor
  · decide
  · decide

/-- C4 amended: the absolute Zero/Other override holds in the dashboard's
`getCellColor` (black and grey before any scheme or palette lookup, even
against a scheme defining those labels), while the spatial viewer's
`getColorForClass` performs a plain palette lookup — whatever color the
generated palette holds for a class (including `"Zero"`/`"Other"`) is
returned as-is, with grey `(128, 128, 128)` only as the absent-entry
fallback. -/
theorem c4_amended_overrides :
    (∀ scheme : List (String × String),
        getCellColor scheme "Zero" = "#000000" ∧
        getCellColor scheme "Other" = "#999999") ∧
    (∀ (colors : List (String × (ℕ × ℕ × ℕ))) (className : String) (rgb : ℕ × ℕ × ℕ),
        alookup colors className = some rgb → getColorForClass colors className = rgb) ∧
    (∀ (colors : List (String × (ℕ × ℕ × ℕ))) (className : String),
        alookup colors className = none →
        getColorForClass colors className = (128, 128, 128)) := by
  refine ⟨?_, ?_, ?_⟩
  · intro scheme
    exact ⟨rfl, rfl⟩
  · intro colors cn rgb h
    simp [getColorForClass, h]
  · intro colors cn h
    simp [getColorForClass, h]

/-- Witness for C4 amended: a palette entry shows through unchanged, and an
absent class falls back to grey. -/
theorem c4_witness :
    getColorForClass [("X", (3, 4, 5))] "X" = (3, 4, 5) ∧
    getColorForClass [("X", (3, 4, 5))] "Y" = (128, 128, 128) :=
  ⟨c4_amended_overrides.2.1 [("X", (3, 4, 5))] "X" (3, 4, 5) (by decide),
   c4_amended_overrides.2.2 [("X", (3, 4, 5))] "Y" (by decide)⟩

theorem render_fitted (s : SpatialState) (h : s.viewFitted = true) :
    render s = s := by
  unfold render
  split
  · simp [h]
  · rfl

theorem render_unfitted (s : SpatialState) (h1 : s.deckReady = true)
    (h2 : s.cells ≠ []) (h3 : s.viewFitted = false) :
    render s = { s with viewFitted := true, fitCount := s.fitCount + 1 } := by
  have hlen : (s.cells.length == 0) = false := by
    simp [List.length_eq_zero]
    exact h2
  unfold render
  rw [h1, hlen, h3]
  simp

theorem render_not_ready (s : SpatialState)
    (h : s.deckReady = false ∨ s.cells = []) : render s = s := by
  unfold render
  rcases h with h | h
  · rw [h]
    simp
  · rw [h]
    simp

theorem loadRunData_success_unfold (s : SpatialState) (runId : String) (d : CellsJson) :
    (loadRunData s runId (some d)).1
      = render (updateCellClassCounts
          { s with currentRun := some runId, cells := d.cells,
                   numCells := d.cells.length,
                   geom := { ready := true, zValues := d.z_values,
                             defaultRadius := d.default_radius.getD 6,
                             is3D := decide (1 < d.z_values.length) },
                   viewFitted := false, planeFilterEnabled := false,
                   selectedPlane := none }) := rfl

/-- C2 counterexample: `viewFitted` is not left alone until the next load.
After a successful load (which fits once: `fitCount` 0 → 1), a switch to
the spatial tab sets `viewFitted` back to false and the re-render auto-fits
a second time (`fitCount` 1 → 2) with no intervening geometry load —
contradicting "never set to false or back to true again by any later
event ... until the next geometry load". -/
theorem c2_counterexample :
    ((loadRunData spatialReady "run_0" (some demoJson1)).1).viewFitted = true ∧
    ((loadRunData spatialReady "run_0" (some demoJson1)).1).fitCount = 1 ∧
    (switchTab ((loadRunData spatialReady "run_0" (some demoJson1)).1)
        "flowchartSpatial").fitCount = 2 ∧
    (switchTab ((loadRunData spatialReady "run_0" (some demoJson1)).1)
        "flowchartSpatial").viewFitted = true := by
  refine ⟨?_, ?_, ?_, ?_⟩ <;> decide

/-- C2 amended: `viewFitted` is reset to false by every geometry load *and*
by every switch to the spatial tab, and becomes true (with exactly one
`autoFitView` call, counted by `fitCount`) on the first successful render
after each such reset; a load or tab switch whose render cannot run
(deck.gl missing or no cells) leaves it false without fitting; renders
while fitted, switches to other tabs, and filter changes never unset it
and never re-fit. -/
theorem c2_amended_viewfitted :
    (∀ (s : SpatialState) (runId : String) (d : CellsJson),
        s.deckReady = true → d.cells ≠ [] →
        ((loadRunData s runId (some d)).1).viewFitted = true ∧
        ((loadRunData s runId (some d)).1).fitCount = s.fitCount + 1) ∧
    (∀ (s : SpatialState) (runId : String) (d : CellsJson),
        s.deckReady = false ∨ d.cells = [] →
        ((loadRunData s runId (some d)).1).viewFitted = false ∧
        ((loadRunData s runId (some d)).1).fitCount = s.fitCount) ∧
    (∀ s : SpatialState, s.viewFitted = true → render s = s) ∧
    (∀ s : SpatialState, s.deckReady = true → s.cells ≠ [] →
        (switchTab s "flowchartSpatial").viewFitted = true ∧
        (switchTab s "flowchartSpatial").fitCount = s.fitCount + 1) ∧
    (∀ (s : SpatialState) (tabId : String), tabId ≠ "flowchartSpatial" →
        switchTab s tabId = s) ∧
    (∀ (s : SpatialState) (selected : String) (m : Option ℕ),
        s.viewFitted = true →
        (filterButtonSpatial s selected m).viewFitted = true ∧
        (filterButtonSpatial s selected m).fitCount = s.fitCount) := by
  refine ⟨?_, ?_, ?_, ?_, ?_, ?_⟩
  · intro s rid d h1 h2
    rw [loadRunData_success_unfold]
    set s1 : SpatialState :=
      { s with currentRun := some rid, cells := d.cells,
               numCells := d.cells.length,
               geom := { ready := true, zValues := d.z_values,
                         defaultRadius := d.default_radius.getD 6,
                         is3D := decide (1 < d.z_values.length) },
               viewFitted := false, planeFilterEnabled := false,
               selectedPlane := none } with hs1
    obtain ⟨hc, hdr, hvf, hfc⟩ := updateCellClassCounts_preserves s1
    rw [render_unfitted (updateCellClassCounts s1)
      (by rw [hdr]; exact h1) (by rw [hc]; exact h2) (by rw [hvf])]
    simp [hfc]
  · intro s rid d h
    rw [loadRunData_success_unfold]
    set s1 : SpatialState :=
      { s with currentRun := some rid, cells := d.cells,
               numCells := d.cells.length,
               geom := { ready := true, zValues := d.z_values,
                         defaultRadius := d.default_radius.getD 6,
                         is3D := decide (1 < d.z_values.length) },
               viewFitted := false, planeFilterEnabled := false,
               selectedPlane := none } with hs1
    obtain ⟨hc, hdr, hvf, hfc⟩ := updateCellClassCounts_preserves s1
    rw [render_not_ready (updateCellClassCounts s1)
      (by rcases h with h | h
          · exact Or.inl (by rw [hdr]; exact h)
          · exact Or.inr (by rw [hc]; exact h))]
    exact ⟨hvf, hfc⟩
  · intro s h
    exact render_fitted s h
  · intro s h1 h2
    unfold switchTab
    rw [if_pos rfl]
    rw [render_unfitted { s with viewFitted := false } h1 h2 rfl]
    exact ⟨rfl, rfl⟩
  · intro s tabId h
    unfold switchTab
    rw [if_neg h]
  · intro s selected m h
    unfold filterButtonSpatial
    rw [render_fitted _ (by exact h)]
    exact ⟨h, rfl⟩

/-- Witness for C2 amended at a concrete load, tab switch and filter
change. -/
theorem c2_witness :
    ((loadRunData spatialReady "run_0" (some demoJson1)).1).viewFitted = true ∧
    ((loadRunData spatialReady "run_0" (some demoJson1)).1).fitCount
      = spatialReady.fitCount + 1 :=
  c2_amended_viewfitted.1 spatialReady "run_0" demoJson1 rfl
    (by simp [demoJson1])

theorem dashStep_preserves_invariant (s : DashState) (e : DashEvent)
    (h : dashInvariant "run_0" s) : dashInvariant "run_0" (dashStep s e) := by
  cases e with
  | paramChange pn pv ok =>
      simp only [dashStep, onParameterChangeStep]
      split_ifs with h0 h1 h2
      · refine ⟨?_, ?_⟩
        · intro d hd
          simp only [Option.some.injEq] at hd
          subst hd
          simp [DataRef.runIdOf, h0]
        · intro _
          rfl
      · refine ⟨?_, ?_⟩
        · intro d hd
          simp only [Option.some.injEq] at hd
          subst hd
          rfl
        · intro hc
          simp only [Option.some.injEq] at hc
          exact absurd hc h0
      · exact h
      · exact h
  | regionChange r => exact h
  | filterChange f => exact h

/-- C3: after any sequence of completed run-selection (and region/filter)
operations from a successful `init`, the comparison state is consistent:
the alternate dataset is the dataset whose identifier is `currentRun`, and
whenever `currentRun` is the base run identifier the alternate dataset is
reference-identical to the base dataset (equal to `baseRef`, the very
object `state.baseData` holds).  Each event moves the state from one
consistent snapshot to another — never through an observable partial
update, since both fields are assigned within one transition. -/
theorem c3_alt_matches_current_run :
    ∀ baseRun : String, baseRun = "run_0" →
    ∀ events : List DashEvent,
      dashInvariant baseRun (dashRun (initState baseRun) events) := by
  rintro baseRun rfl events
  have hinit : dashInvariant "run_0" (initState "run_0") := by
    refine ⟨?_, ?_⟩
    · intro d hd
      simp only [initState, Option.some.injEq] at hd
      subst hd
      rfl
    · intro _
      rfl
  suffices h : ∀ s, dashInvariant "run_0" s → dashInvariant "run_0" (dashRun s events) by
    exact h _ hinit
  induction events with
  | nil => intro s hs; exact hs
  | cons e es ih =>
      intro s hs
      exact ih _ (dashStep_preserves_invariant s e hs)

/-- Witness for C3 on a concrete event sequence: select inefficiency 1.0
(fetch succeeds), change region, then a failed fetch. -/
theorem c3_witness :
    dashInvariant "run_0"
      (dashRun (initState "run_0")
        [DashEvent.paramChange "inefficiency" "1.0" true,
         DashEvent.regionChange "ca2",
         DashEvent.paramChange "rSpot" "5.0" false]) :=
  c3_alt_matches_current_run "run_0" rfl _

theorem filter_two (l : List Cell) (pl g : Cell → Bool) :
    (l.filter pl).filter g = l.filter (fun c => pl c && g c) := by
  rw [List.filter_filter]
  exact List.filter_congr (fun c _ => by cases pl c <;> cases g c <;> rfl)

theorem filter_three (l : List Cell) (v pl g : Cell → Bool) :
    ((l.filter v).filter pl).filter g
      = l.filter (fun c => v c && (pl c && g c)) := by
  rw [List.filter_filter, List.filter_filter]
  exact List.filter_congr (fun c _ => by cases v c <;> cases pl c <;> cases g c <;> rfl)

theorem countClass_cons (a : Cell) (t : List Cell) (cls : String) :
    countClass (a :: t) cls
      = (if a.cls == cls then 1 else 0) + countClass t cls := by
  simp only [countClass, List.filter_cons]
  split
  · simp [Nat.add_comm]
  · simp

theorem countClass_partition (l : List Cell) (v pq : Cell → Bool) (cls : String) :
    countClass (l.filter pq) cls
      = countClass (l.filter (fun c => v c && pq c)) cls
        + countClass (l.filter (fun c => !v c && pq c)) cls := by
  induction l with
  | nil => rfl
  | cons a t ih =>
      by_cases hpq : pq a = true <;> by_cases hv : v a = true <;>
        simp [List.filter_cons, hpq, hv, countClass_cons, ih] <;>
        split_ifs <;> omega

theorem renderedCells_eq (s : SpatialState) :
    renderedCells s
      = s.cells.filter (fun c => visPred s c && (planePred s c && genePred s c)) := by
  unfold renderedCells
  by_cases hp : planeActive s = true <;> by_cases hg : s.useGeneFilter = true <;>
    simp only [hp, hg, if_true, if_false, Bool.false_eq_true, ite_true, ite_false]
  · rw [filter_three]
    exact List.filter_congr (fun c _ => by simp [visPred, planePred, genePred, hp, hg])
  · rw [filter_two]
    exact List.filter_congr (fun c _ => by simp [visPred, planePred, genePred, hp, hg])
  · rw [filter_two]
    exact List.filter_congr (fun c _ => by
      simp [visPred, planePred, genePred, hp, hg, Bool.and_comm])
  · exact List.filter_congr (fun c _ => by simp [visPred, planePred, genePred, hp, hg])

theorem legendCells_eq (s : SpatialState) :
    getLegendFilteredCells s
      = s.cells.filter (fun c => planePred s c && genePred s c) := by
  unfold getLegendFilteredCells
  by_cases hp : planeActive s = true <;> by_cases hg : s.useGeneFilter = true <;>
    simp only [hp, hg, if_true, if_false, Bool.false_eq_true, ite_true, ite_false]
  · rw [filter_two]
    exact List.filter_congr (fun c _ => by simp [planePred, genePred, hp, hg])
  · exact List.filter_congr (fun c _ => by simp [planePred, genePred, hp, hg])
  · exact List.filter_congr (fun c _ => by simp [planePred, genePred, hp, hg])
  · exact (List.filter_eq_self.mpr
      (fun c _ => by simp [planePred, genePred, hp, hg])).symm

/-- C7: the rendered subset is exactly the cells satisfying the conjunction
of the class-visibility, plane (missing z read as 0, only when
`planeFilterEnabled && is3D && selectedPlane != null`), and gene-count
predicates; the legend is counted over the subset satisfying only the
plane and gene predicates; predicate order does not change the rendered
set; and per class, the legend count equals the rendered count plus the
count of hidden-but-plane-and-gene-matching cells of that class. -/
theorem c7_filter_pipeline :
    (∀ s : SpatialState,
        renderedCells s
          = s.cells.filter (fun c =>
              visPred s c && (planePred s c && genePred s c))) ∧
    (∀ s : SpatialState,
        getLegendFilteredCells s
          = s.cells.filter (fun c => planePred s c && genePred s c)) ∧
    (∀ s : SpatialState,
        s.cells.filter (fun c =>
            genePred s c && (planePred s c && visPred s c))
          = renderedCells s) ∧
    (∀ (s : SpatialState) (cls : String),
        countClass (getLegendFilteredCells s) cls
          = countClass (renderedCells s) cls
            + countClass (s.cells.filter (fun c =>
                !visPred s c && (planePred s c && genePred s c))) cls) := by
  refine ⟨renderedCells_eq, legendCells_eq, ?_, ?_⟩
  · intro s
    rw [renderedCells_eq]
    exact List.filter_congr (fun c _ => by
      cases visPred s c <;> cases planePred s c <;> cases genePred s c <;> rfl)
  · intro s cls
    rw [renderedCells_eq, legendCells_eq]
    exact countClass_partition s.cells (fun c => visPred s c)
      (fun c => planePred s c && genePred s c) cls

theorem alookup_append_left {α : Type} (l₁ l₂ : List (String × α)) (k : String)
    (v : α) (h : alookup l₁ k = some v) : alookup (l₁ ++ l₂) k = some v := by
  induction l₁ with
  | nil => simp [alookup] at h
  | cons e rest ih =>
      obtain ⟨k', v'⟩ := e
      simp only [alookup, List.cons_append] at h ⊢
      split at h
      · rename_i hk
        rw [if_pos hk]
        exact h
      · rename_i hk
        rw [if_neg hk]
        exact ih h

theorem alookup_append_right {α : Type} (l₁ l₂ : List (String × α)) (k : String)
    (h : alookup l₁ k = none) : alookup (l₁ ++ l₂) k = alookup l₂ k := by
  induction l₁ with
  | nil => rfl
  | cons e rest ih =>
      obtain ⟨k', v'⟩ := e
      simp only [alookup, List.cons_append] at h ⊢
      split at h
      · exact absurd h (by simp)
      · rename_i hk
        rw [if_neg hk]
        exact ih h

theorem classCountStep_vis_preserved (acc : List (String × ℕ) × List (String × Bool))
    (c : Cell) (k : String) (v : Bool) (h : alookup acc.2 k = some v) :
    alookup (classCountStep acc c).2 k = some v := by
  unfold classCountStep
  dsimp only
  split
  · exact h
  · exact alookup_append_left _ _ _ _ h

theorem foldl_classCountStep_vis_preserved :
    ∀ (cells : List Cell) (acc : List (String × ℕ) × List (String × Bool))
      (k : String) (v : Bool), alookup acc.2 k = some v →
      alookup ((cells.foldl classCountStep acc).2) k = some v := by
  intro cells
  induction cells with
  | nil => intro acc k v h; exact h
  | cons c t ih =>
      intro acc k v h
      simp only [List.foldl_cons]
      exact ih _ k v (classCountStep_vis_preserved acc c k v h)

theorem foldl_classCountStep_vis_new :
    ∀ (cells : List Cell) (acc : List (String × ℕ) × List (String × Bool))
      (k : String), alookup acc.2 k = none →
      k ∈ cells.map (fun c => c.cls) →
      alookup ((cells.foldl classCountStep acc).2) k = some true := by
  intro cells
  induction cells with
  | nil => intro acc k _ hm; simp at hm
  | cons c t ih =>
      intro acc k h hm
      simp only [List.foldl_cons]
      by_cases hck : c.cls = k
      · have hiss : (alookup acc.2 c.cls).isSome = false := by
          rw [hck, h]; rfl
        have hstep : alookup (classCountStep acc c).2 k = some true := by
          unfold classCountStep
          dsimp only
          rw [if_neg (by simp [hiss])]
          rw [alookup_append_right _ _ _ (hck ▸ h)]
          simp [alookup, hck]
        exact foldl_classCountStep_vis_preserved t _ k true hstep
      · have hm' : k ∈ t.map (fun c => c.cls) := by
          simp only [List.map_cons, List.mem_cons] at hm
          rcases hm with hm | hm
          · exact absurd hm.symm hck
          · exact hm
        have h' : alookup (classCountStep acc c).2 k = none := by
          unfold classCountStep
          dsimp only
          split
          · exact h
          · rw [alookup_append_right _ _ _ h]
            simp [alookup, hck]
        exact ih _ k h' hm'

theorem updateCellClassCounts_vis_preserved (s : SpatialState) (cls : String)
    (b : Bool) (h : alookup s.cellClassVisible cls = some b) :
    alookup (updateCellClassCounts s).cellClassVisible cls = some b := by
  unfold updateCellClassCounts
  split
  · exact h
  · exact foldl_classCountStep_vis_preserved s.cells ([], s.cellClassVisible) cls b h

/-- C10: loading a new geometry preserves existing per-class visibility
flags.  `updateCellClassCounts` keeps the stored Boolean of every class
already present in `cellClassVisible` and initialises only absent classes
(that occur in the loaded cells) to visible; `loadRunData` on a successful
fetch therefore leaves every pre-existing flag intact — a class hidden in
one run stays hidden after switching to another run containing it. -/
theorem c10_visibility_survives_load :
    (∀ (s : SpatialState) (cls : String) (b : Bool),
        alookup s.cellClassVisible cls = some b →
        alookup (updateCellClassCounts s).cellClassVisible cls = some b) ∧
    (∀ (s : SpatialState) (cls : String),
        alookup s.cellClassVisible cls = none →
        cls ∈ s.cells.map (fun c => c.cls) →
        alookup (updateCellClassCounts s).cellClassVisible cls = some true) ∧
    (∀ (s : SpatialState) (runId : String) (d : CellsJson) (cls : String) (b : Bool),
        alookup s.cellClassVisible cls = some b →
        alookup ((loadRunData s runId (some d)).1).cellClassVisible cls = some b) := by
  refine ⟨updateCellClassCounts_vis_preserved, ?_, ?_⟩
  · intro s cls h hm
    unfold updateCellClassCounts
    split
    · rename_i hemp
      rw [List.isEmpty_iff.mp hemp] at hm
      simp at hm
    · exact foldl_classCountStep_vis_new s.cells ([], s.cellClassVisible) cls h hm
  · intro s runId d cls b h
    rw [loadRunData_success_unfold, render_cellClassVisible]
    exact updateCellClassCounts_vis_preserved _ cls b h

/-- Witness for C10: class `"A"` is loaded from the first run, hidden by a
legend click, and stays hidden after loading a second run that also
contains `"A"`. -/
theorem c10_witness :
    alookup ((loadRunData
        (toggleClassVisibility ((loadRunData spatialReady "run_0" (some demoJson1)).1) "A")
        "run_1" (some demoJson2)).1).cellClassVisible "A" = some false :=
  c10_visibility_survives_load.2.2
    (toggleClassVisibility ((loadRunData spatialReady "run_0" (some demoJson1)).1) "A")
    "run_1" demoJson2 "A" false (by decide)

theorem alookup_bump_getD (m : List (String × ℕ)) (k key : String) (n : ℕ) :
    (alookup (bump m k n) key).getD 0
      = (alookup m key).getD 0 + (if k = key then n else 0) := by
  induction m with
  | nil =>
      simp only [bump, alookup]
      by_cases h : k = key
      · rw [if_pos h, if_pos h]
        simp
      · rw [if_neg h, if_neg h]
        simp
  | cons e rest ih =>
      obtain ⟨k', m'⟩ := e
      simp only [bump]
      by_cases h1 : k' = k
      · rw [if_pos h1]
        simp only [alookup]
        by_cases h2 : k' = key
        · rw [if_pos h2, if_pos h2, if_pos (h1 ▸ h2)]
          simp [Nat.add_comm, Nat.add_assoc]
        · rw [if_neg h2, if_neg h2, if_neg (fun hk => h2 (h1.trans hk))]
          simp
      · rw [if_neg h1]
        simp only [alookup]
        by_cases h2 : k' = key
        · rw [if_pos h2, if_pos h2, if_neg (fun hk => h1 (h2.trans hk.symm))]
          simp
        · rw [if_neg h2, if_neg h2]
          exact ih

theorem aggregateSimplified_foldl (counts : List (String × ℕ)) :
    ∀ (acc : List (String × ℕ)) (key : String),
      (alookup (counts.foldl (fun m e => bump m (simplifyClassLabel e.1) e.2) acc)
          key).getD 0
        = (alookup acc key).getD 0 + totalForSimplified counts key := by
  induction counts with
  | nil =>
      intro acc key
      simp [totalForSimplified]
  | cons e rest ih =>
      intro acc key
      simp only [List.foldl_cons]
      rw [ih, alookup_bump_getD]
      have ht : totalForSimplified (e :: rest) key
          = (if simplifyClassLabel e.1 = key then e.2 else 0)
            + totalForSimplified rest key := by
        simp only [totalForSimplified, List.filter_cons]
        by_cases h : simplifyClassLabel e.1 = key
        · simp [h]
        · simp [h]
      rw [ht]
      omega

/-- C8: when the alternate dataset has no transitions entry, the Sankey
projection synthesizes identity transitions from the base counts: the
concrete base counts of the claim produce exactly the links CA1→CA1 (50)
and Other→Other (10); the node set is always the ten simplified classes
duplicated into Base/Alt halves (20 nodes) in the fixed canonical order;
every full class label maps to one of the ten simplified classes; the
aggregation per simplified class totals exactly the counts of the labels
that simplify to it; and the fallback emits one self-loop per aggregated
simplified class. -/
theorem c8_sankey_fallback :
    fallbackTransitions [("016 CA1-ProS Glut", 50), ("999 Unknown", 10)]
      = [("CA1", "CA1", 50), ("Other", "Other", 10)] ∧
    sankeyNodeLabels
      = ["Astro (Base)", "CA1 (Base)", "CA2 (Base)", "CA3 (Base)", "DG (Base)",
         "L5 (Base)", "L6 (Base)", "Oligo (Base)", "Other (Base)", "Zero (Base)",
         "Astro (Alt)", "CA1 (Alt)", "CA2 (Alt)", "CA3 (Alt)", "DG (Alt)",
         "L5 (Alt)", "L6 (Alt)", "Oligo (Alt)", "Other (Alt)", "Zero (Alt)"] ∧
    (∀ label : String, simplifyClassLabel label ∈ SIMPLIFIED_CLASSES) ∧
    (∀ (counts : List (String × ℕ)) (simplified : String),
        (alookup (aggregateSimplified counts) simplified).getD 0
          = totalForSimplified counts simplified) ∧
    (∀ baseCounts : List (String × ℕ),
        sankeyTransitions none baseCounts
          = (aggregateSimplified baseCounts).map (fun e => (e.1, e.1, e.2))) := by
  refine ⟨by decide, by decide, ?_, ?_, fun _ => rfl⟩
  · intro label
    unfold simplifyClassLabel
    split_ifs <;> decide
  · intro counts simplified
    have h := aggregateSimplified_foldl counts [] simplified
    simpa [aggregateSimplified, alookup] using h

theorem foldl_bstep_le :
    ∀ (l : List Cell) (b : ℚ × ℚ × ℚ × ℚ),
      (l.foldl bstep b).1 ≤ b.1 ∧ (l.foldl bstep b).2.1 ≤ b.2.1 ∧
      b.2.2.1 ≤ (l.foldl bstep b).2.2.1 ∧ b.2.2.2 ≤ (l.foldl bstep b).2.2.2 := by
  intro l
  induction l with
  | nil => intro b; exact ⟨le_refl _, le_refl _, le_refl _, le_refl _⟩
  | cons c t ih =>
      intro b
      obtain ⟨h1, h2, h3, h4⟩ := ih (bstep b c)
      simp only [List.foldl_cons]
      exact ⟨h1.trans (min_le_left _ _), h2.trans (min_le_left _ _),
             (le_max_left _ _).trans h3, (le_max_left _ _).trans h4⟩

theorem foldl_bstep_bounds :
    ∀ (l : List Cell) (b : ℚ × ℚ × ℚ × ℚ) (c : Cell), c ∈ l →
      (l.foldl bstep b).1 ≤ c.x ∧ c.x ≤ (l.foldl bstep b).2.2.1 ∧
      (l.foldl bstep b).2.1 ≤ c.y ∧ c.y ≤ (l.foldl bstep b).2.2.2 := by
  intro l
  induction l with
  | nil => intro b c hc; cases hc
  | cons a t ih =>
      intro b c hc
      simp only [List.foldl_cons]
      rcases List.mem_cons.mp hc with rfl | hc
      · obtain ⟨h1, h2, h3, h4⟩ := foldl_bstep_le t (bstep b c)
        exact ⟨h1.trans (min_le_right _ _), (le_max_right _ _).trans h3,
               h2.trans (min_le_right _ _), (le_max_right _ _).trans h4⟩
      · exact ih (bstep b a) c hc

/-- C9: auto-fit bounds all (unfiltered) cells, pads each side by 10% of the
extent (padded dimension = extent × 6/5), targets the midpoint, and when
container sides and both extents are positive emits the ratio pair whose
zoom is `min(log2(cw/paddedW), log2(ch/paddedH))` with a 1000 ms
transition; in every other case — non-positive container width or height,
or a non-positive padded extent in either dimension (equivalently a
degenerate bounding box, e.g. a single-cell dataset) — it applies the
fixed default zoom with no transition; an empty cell set is a no-op.  On
the claim's concrete input (bbox `[0,100] × [0,50]`, container 800 × 400)
the target is `(50, 25)` and the zoom equals
`min(log2(800/120), log2(400/60))`. -/
theorem c9_autofit :
    (autoFitView demoFitCells 800 400
       = some ⟨50, 25, .fitRatios (20/3) (20/3), 1000⟩) ∧
    (∀ (zx zy tX tY : ℚ) (dur : ℕ),
        autoFitView demoFitCells 800 400 = some ⟨tX, tY, .fitRatios zx zy, dur⟩ →
        min (Real.logb 2 (zx : ℝ)) (Real.logb 2 (zy : ℝ))
          = min (Real.logb 2 ((800 : ℝ) / 120)) (Real.logb 2 ((400 : ℝ) / 60))) ∧
    (∀ (c0 : Cell) (cs : List Cell) (b : ℚ × ℚ × ℚ × ℚ),
        b = bbox c0 (c0 :: cs) →
        ∀ c ∈ c0 :: cs, b.1 ≤ c.x ∧ c.x ≤ b.2.2.1 ∧ b.2.1 ≤ c.y ∧ c.y ≤ b.2.2.2) ∧
    (∀ (c0 : Cell) (cs : List Cell) (cw ch : ℚ) (b : ℚ × ℚ × ℚ × ℚ),
        b = bbox c0 (c0 :: cs) →
        0 < cw → 0 < ch → b.1 < b.2.2.1 → b.2.1 < b.2.2.2 →
        autoFitView (c0 :: cs) cw ch
          = some ⟨(b.1 + b.2.2.1) / 2, (b.2.1 + b.2.2.2) / 2,
                  .fitRatios (cw / ((b.2.2.1 - b.1) * (6/5)))
                             (ch / ((b.2.2.2 - b.2.1) * (6/5))), 1000⟩) ∧
    (∀ (c0 : Cell) (cs : List Cell) (cw ch : ℚ) (b : ℚ × ℚ × ℚ × ℚ),
        b = bbox c0 (c0 :: cs) →
        ¬(0 < cw ∧ 0 < ch ∧ b.1 < b.2.2.1 ∧ b.2.1 < b.2.2.2) →
        autoFitView (c0 :: cs) cw ch
          = some ⟨(b.1 + b.2.2.1) / 2, (b.2.1 + b.2.2.2) / 2, .defaultZoom, 0⟩) ∧
    (∀ cw ch : ℚ, autoFitView [] cw ch = none) := by
  have hconc : autoFitView demoFitCells 800 400
      = some ⟨50, 25, .fitRatios (20/3) (20/3), 1000⟩ := by
    norm_num [autoFitView, demoFitCells, bbox, bstep, min_def, max_def]
  refine ⟨hconc, ?_, ?_, ?_, ?_, fun _ _ => rfl⟩
  · intro zx zy tX tY dur h
    rw [hconc] at h
    simp only [Option.some.injEq, FitView.mk.injEq, ZoomSpec.fitRatios.injEq] at h
    obtain ⟨-, -, ⟨hzx, hzy⟩, -⟩ := h
    rw [← hzx, ← hzy]
    have e1 : (((20 : ℚ) / 3 : ℚ) : ℝ) = 800 / 120 := by norm_num
    have e2 : (400 : ℝ) / 60 = 800 / 120 := by norm_num
    rw [e1, e2]
  · intro c0 cs b hb c hc
    subst hb
    exact foldl_bstep_bounds (c0 :: cs) (c0.x, c0.y, c0.x, c0.y) c hc
  · intro c0 cs cw ch b hb hcw hch hx hy
    subst hb
    simp only [autoFitView]
    rw [if_pos ⟨hcw, hch, by unfold bbox at hx ⊢; linarith, by unfold bbox at hy ⊢; linarith⟩]
    simp only [Option.some.injEq, FitView.mk.injEq, ZoomSpec.fitRatios.injEq]
    refine ⟨by unfold bbox; ring, by unfold bbox; ring, ⟨?_, ?_⟩, trivial⟩
    · congr 1
      unfold bbox
      ring
    · congr 1
      unfold bbox
      ring
  · intro c0 cs cw ch b hb h
    subst hb
    simp only [autoFitView]
    split_ifs with hcon
    · exact absurd
        ⟨hcon.1, hcon.2.1, by linarith [hcon.2.2.1], by linarith [hcon.2.2.2]⟩ h
    · simp only [Option.some.injEq, FitView.mk.injEq]
      refine ⟨by unfold bbox; ring, by unfold bbox; ring, ?_, ?_⟩ <;> trivial

/-- Witness for C9: the bounding box of the demonstration cells bounds the
second cell's position `(100, 50)`, and a single-cell geometry (degenerate
bounding box) in a fully visible 800 × 400 container takes the
default-zoom, no-transition fallback. -/
theorem c9_witness :
    ((bbox ⟨1, 0, 0, none, none, "A", some 5⟩ demoFitCells).1 ≤ (100 : ℚ) ∧
     (100 : ℚ) ≤ (bbox ⟨1, 0, 0, none, none, "A", some 5⟩ demoFitCells).2.2.1 ∧
     (bbox ⟨1, 0, 0, none, none, "A", some 5⟩ demoFitCells).2.1 ≤ (50 : ℚ) ∧
     (50 : ℚ) ≤ (bbox ⟨1, 0, 0, none, none, "A", some 5⟩ demoFitCells).2.2.2) ∧
    autoFitView [demoCellA] 800 400 = some ⟨0, 0, .defaultZoom, 0⟩ :=
  ⟨c9_autofit.2.2.1 ⟨1, 0, 0, none, none, "A", some 5⟩
     [⟨2, 100, 50, none, none, "B", some 7⟩] _ rfl
     ⟨2, 100, 50, none, none, "B", some 7⟩
     (List.mem_cons_of_mem _ (List.mem_cons_self _ _)),
   by
     have hb : bbox demoCellA [demoCellA] = (0, 0, 0, 0) := by
       norm_num [bbox, bstep, demoCellA, min_def, max_def]
     have h := c9_autofit.2.2.2.2.1 demoCellA [] 800 400 _ rfl
       (by
         intro hcon
         rw [hb] at hcon
         exact lt_irrefl 0 hcon.2.2.1)
     rw [hb] at h
     simpa using h⟩

end PciSeq
